import Mathlib

/-!
Shallow embedding of the multi-tenant Superset fork: the tenant context
middleware (superset/middleware/tenant_context.py), the multi-tenant
security manager (superset/security/custom_manager.py) and the tenant
manager utilities (superset/utils/tenant_manager.py).

Modelling conventions, applied throughout:
- A Python attribute that may be absent is an Option: none stands for
  hasattr returning False, some v for a present attribute of value v.
- A nullable string attribute therefore has type Option (Option String):
  some none is a present attribute whose value is Python None (a persisted
  row whose tenant_id column is NULL), some (some s) a string label.
- Python truthiness of Optional[str]: None and the empty string are falsy.
- The underlying (parent class) permission logic lives outside these three
  files and is treated as an opaque collaborator: it enters each embedded
  function as an explicit argument (a Bool for can-access checks, an
  AccessResult for raise_for_access).
-/

namespace Superset

/-- Python truthiness of an Optional[str]: None and the empty string are falsy. -/
def pyFalsy : Option String → Bool
  | none => true
  | some s => s == ""

/-- ASCII whitespace, the fragment of Python str.strip relevant here. -/
def isSpaceChar (c : Char) : Bool := c == ' ' || c == '\t' || c == '\n' || c == '\r'

/-- Python str.strip(): drop leading and trailing whitespace. -/
def pyStrip (s : String) : String :=
  String.mk (((s.data.dropWhile isSpaceChar).reverse.dropWhile isSpaceChar).reverse)

/-- Python str.split on a dot, over the character list: splitting the empty
string gives one empty part, and every dot opens a new part. -/
def splitDotList (l : List Char) : List (List Char) :=
  match l with
  | [] => [[]]
  | c :: rest =>
    let r := splitDotList rest
    if c == '.' then [] :: r
    else
      match r with
      | h :: t => (c :: h) :: t
      | [] => [[c]]

/-- Python host.split with a dot separator. -/
def pySplitDot (s : String) : List String := (splitDotList s.data).map String.mk

/-- ASCII lower-casing of one character, the fragment of Python str.lower
relevant here. -/
def asciiLowerChar (c : Char) : Char :=
  if c.toNat ≥ 65 && c.toNat ≤ 90 then Char.ofNat (c.toNat + 32) else c

/-- Python str.lower over ASCII text. -/
def pyLower (s : String) : String := String.mk (s.data.map asciiLowerChar)

/-- A JSON scalar as it appears as a claim value: a string or an integer.
String rendering follows Python str. -/
inductive PyVal where
  | vstr (s : String)
  | vint (n : Int)
deriving DecidableEq

/-- Python str applied to a claim value. -/
def pyStr : PyVal → String
  | .vstr s => s
  | .vint n => toString n

/-- Python truthiness of a claim value. -/
def pyTruthy : PyVal → Bool
  | .vstr s => s != ""
  | .vint n => n != 0

/-! ## Security manager: tenant gate on resources
Embeds MultiTenantSecurityManager.can_access_database,
can_access_datasource and raise_for_access. The recurring Python pattern
  tenant_id is not None and hasattr(r, tenant attribute) and r value differs
is factored out as tenantDenies. -/

/-- The tenant-mismatch test the security manager repeats for every
resource: the resolved tenant is not None, the resource has the tenant_id
attribute, and the attribute value (possibly Python None) differs from the
resolved tenant. -/
def tenantDenies (tenant : Option String) (attr : Option (Option String)) : Bool :=
  match tenant, attr with
  | some t, some v => if v = some t then false else true
  | _, _ => false

/-- MultiTenantSecurityManager.can_access_database: tenant pre-check, then
the parent (non-tenant) check, given here as the argument underlying. -/
def can_access_database (tenant : Option String) (db_tenant_attr : Option (Option String))
    (underlying : Bool) : Bool :=
  if tenantDenies tenant db_tenant_attr then false else underlying

/-- A datasource as the security manager probes it: an id, its own optional
tenant_id attribute, and the tenant_id attribute of its owning database.
The owning-database field is some v exactly when the datasource has a
database attribute and that database has a tenant_id attribute of value v;
none covers every other hasattr outcome, which the code skips alike. -/
structure Datasource where
  rid : Nat
  tenant_attr : Option (Option String)
  database_tenant_attr : Option (Option String)
deriving DecidableEq

/-- MultiTenantSecurityManager.can_access_datasource: tenant pre-check on
the datasource itself, then on its owning database, then the parent check. -/
def can_access_datasource (tenant : Option String) (ds : Datasource)
    (underlying : Bool) : Bool :=
  if tenantDenies tenant ds.tenant_attr then false
  else if tenantDenies tenant ds.database_tenant_attr then false
  else underlying

/-- A dashboard, chart or database as raise_for_access probes it: an id and
an optional tenant_id attribute. -/
structure Resource where
  rid : Nat
  tenant_attr : Option (Option String)
deriving DecidableEq

/-- Outcome of raise_for_access: normal return, a SupersetSecurityException
with its message, or a not-found style error (only the opaque underlying
logic can produce the latter; the tenant pre-check never does). -/
inductive AccessResult where
  | ok
  | securityError (msg : String)
  | notFoundError (msg : String)
deriving DecidableEq

/-- The f-string of each tenant denial raised by raise_for_access. -/
def denialMessage (kind : String) (rid : Nat) (tenant : String) : String :=
  "Access denied: " ++ kind ++ " " ++ toString rid ++ " not accessible to tenant " ++ tenant

/-- One block of raise_for_access: if the optional resource is present and
tenantDenies holds, the denial message for it. -/
def checkResource (t : String) (kind : String) (r : Option Resource) : Option String :=
  match r with
  | some res =>
      if tenantDenies (some t) res.tenant_attr then some (denialMessage kind res.rid t)
      else none
  | none => none

/-- MultiTenantSecurityManager.raise_for_access: with a resolved tenant,
check dashboard, chart, database, datasource in order (the datasource block
reads only the datasource own tenant_id, not its owning database), raising
on the first mismatch; otherwise defer to the parent, given as underlying. -/
def raise_for_access (tenant : Option String)
    (dashboard chart database : Option Resource) (datasource : Option Datasource)
    (underlying : AccessResult) : AccessResult :=
  let failure : Option String :=
    match tenant with
    | none => none
    | some t =>
        (checkResource t "Dashboard" dashboard) <|>
        (checkResource t "Chart" chart) <|>
        (checkResource t "Database" database) <|>
        (checkResource t "Datasource" (datasource.map (fun ds => ⟨ds.rid, ds.tenant_attr⟩)))
  match failure with
  | some msg => .securityError msg
  | none => underlying

/-! ## Middleware: tenant resolution -/

/-- The excluded set of TenantContextMiddleware.extract_tenant_from_subdomain. -/
def excluded_subdomains : List String := ["www", "api", "admin", "static", "cdn"]

/-- TenantContextMiddleware.extract_tenant_from_subdomain. -/
def extract_tenant_from_subdomain (enable_subdomain_routing : Bool) (host : String) :
    Option String :=
  if !enable_subdomain_routing || host == "" then none
  else
    let parts := pySplitDot host
    if parts.length > 2 then
      let subdomain := pyLower (parts.headD "")
      if excluded_subdomains.contains subdomain then none else some subdomain
    else none

/-- The principal as the middleware probes it: the parsed extra claim set
(none when the attribute is absent or falsy) and the optional direct
tenant_id attribute. JSON parsing is assumed done; a parse failure is
logged and swallowed in the code and corresponds to extra = none here. -/
structure User where
  extra : Option (List (String × PyVal))
  tenant_id_attr : Option PyVal

/-- Python dict membership plus subscript on the parsed claim set. -/
def lookupClaim (d : List (String × PyVal)) (k : String) : Option PyVal :=
  (d.find? (fun p => p.1 == k)).map (fun p => p.2)

/-- The ordered claim-key list of extract_tenant_from_oidc_claims. -/
def tenant_claims : List String := ["tenant_id", "tenant", "org_id", "organization", "company_id"]

/-- TenantContextMiddleware.extract_tenant_from_oidc_claims: scan the claim
set for the first key of tenant_claims, returning str of its value; only
when no key matches, fall back to the direct tenant_id attribute when that
is present and truthy. -/
def extract_tenant_from_oidc_claims (user : Option User) : Option String :=
  match user with
  | none => none
  | some u =>
    let fromClaims : Option PyVal :=
      match u.extra with
      | some d => tenant_claims.findSome? (fun k => lookupClaim d k)
      | none => none
    match fromClaims with
    | some v => some (pyStr v)
    | none =>
      match u.tenant_id_attr with
      | some w => if pyTruthy w then some (pyStr w) else none
      | none => none

/-- What set_tenant_context writes into the Flask g context. -/
structure ResolvedContext where
  tenant_id : Option String
  source : String
deriving DecidableEq

/-- One tier of set_tenant_context after the header tier: if the running
tenant is falsy and the candidate is truthy, adopt candidate and source. -/
def applyTier (cur : Option String × String) (cand : Option String) (src : String) :
    Option String × String :=
  if pyFalsy cur.1 then
    match cand with
    | some v => if v == "" then cur else (some v, src)
    | none => cur
  else cur

/-- TenantContextMiddleware.set_tenant_context. The header argument is the
value of the configured tenant header (TENANT_HEADER, default X-Tenant-ID)
as request.headers.get returns it. -/
def set_tenant_context (routing : Bool) (default_tenant : Option String)
    (header : Option String) (host : String) (user : Option User) : ResolvedContext :=
  let st0 : Option String × String :=
    match header with
    | some h => if h == "" then (none, "none") else (some (pyStrip h), "header")
    | none => (none, "none")
  let st1 := applyTier st0 (extract_tenant_from_subdomain routing host) "subdomain"
  let st2 := applyTier st1 (extract_tenant_from_oidc_claims user) "oidc"
  let st3 := applyTier st2 default_tenant "default"
  ⟨st3.1, st3.2⟩

/-! ## Security manager: get_current_tenant_id -/

/-- The principal as MultiTenantSecurityManager.get_current_tenant_id
probes it. The direct attribute is flattened to Option String (none for
absent or Python None, some for a string, possibly empty hence falsy); the
extra claim dict carries string values. -/
structure SMUser where
  tenant_id_attr : Option String
  extra : Option (List (String × String))

/-- Python dict membership plus subscript on a string-valued dict. -/
def lookupStr (d : List (String × String)) (k : String) : Option String :=
  (d.find? (fun p => p.1 == k)).map (fun p => p.2)

/-- MultiTenantSecurityManager.get_current_tenant_id: g context, then user
attribute or user extra, then the first dot label of the host (excluding
only the exact string www, with no label-count or routing-flag guard), then
the admin header. The admin_see_all branch and the final fallthrough both
return None, so that flag does not change the value. -/
def get_current_tenant_id (g_tenant : Option String) (user : Option SMUser)
    (host : String) (isAdmin : Bool) (header : Option String)
    (admin_see_all : Bool) : Option String :=
  if !(pyFalsy g_tenant) then g_tenant
  else
    let fromUser : Option String :=
      match user with
      | none => none
      | some u =>
        if !(pyFalsy u.tenant_id_attr) then u.tenant_id_attr
        else
          match u.extra with
          | some d => lookupStr d "tenant_id"
          | none => none
    match fromUser with
    | some v => some v
    | none =>
      let fromHost : Option String :=
        if host == "" then none
        else
          let subdomain := (pySplitDot host).headD ""
          if subdomain == "" || subdomain == "www" then none else some subdomain
      match fromHost with
      | some v => some v
      | none =>
        if isAdmin then
          match header with
          | some h => if h == "" then (if admin_see_all then none else none) else some h
          | none => if admin_see_all then none else none
        else none

/-! ## Tenant manager utilities -/

/-- The argument of TenantManager.is_valid_tenant: a string, or any
non-string Python value (None, an int, ...), all of which fail the
isinstance check or are falsy and yield False. -/
inductive PyInput where
  | pstr (s : String)
  | nonstring

/-- The characters removed by the two replace calls of is_valid_tenant. -/
def keepChar (c : Char) : Bool := !(c == '-') && !(c == '_')

/-- Python str.isalnum on a character list: non-empty and every character
alphanumeric. The character test models the ASCII fragment of Python
(the inputs of this development are ASCII). -/
def pyIsAlnumStr (l : List Char) : Bool := !l.isEmpty && l.all Char.isAlphanum

/-- TenantManager.is_valid_tenant: falsy or non-string rejected, then the
length-2-to-50 window, then isalnum of the string with hyphens and
underscores removed. -/
def is_valid_tenant : PyInput → Bool
  | .nonstring => false
  | .pstr s =>
    let l := s.toList
    if l.isEmpty then false
    else if l.length < 2 || 50 < l.length then false
    else pyIsAlnumStr (l.filter keepChar)

/-- TenantManager.get_tenant_cache_key: the tenant_id argument (none models
passing None, the default), falling back to the g context tenant, then the
truthiness split between the tenant: and global: shapes. -/
def get_tenant_cache_key (base_key : String) (tenant_id : Option String)
    (g_tenant : Option String) : String :=
  let t : Option String :=
    match tenant_id with
    | none => g_tenant
    | some s => some s
  match t with
  | some s => if s == "" then "global:" ++ base_key else "tenant:" ++ s ++ ":" ++ base_key
  | none => "global:" ++ base_key

/-! ## Claim theorems -/

/-- C1: the tenant pre-check does NOT treat a persisted row whose nullable
tenant_id column is NULL as accessible. With resolved tenant acme, a
database whose tenant_id attribute is present with value None is denied
although the underlying check allows; a datasource likewise; and
raise_for_access raises a tenant denial for a NULL-labeled dashboard. Only
a resource without the tenant_id attribute passes through unchanged (last
conjunct). This evaluates the code at the failing input of the code_bug
record for C1. -/
theorem C1_null_label_row_denied :
    can_access_database (some "acme") (some none) true = false ∧
    can_access_datasource (some "acme") ⟨3, some none, none⟩ true = false ∧
    raise_for_access (some "acme") (some ⟨7, some none⟩) none none none AccessResult.ok
      = AccessResult.securityError (denialMessage "Dashboard" 7 "acme") ∧
    can_access_database (some "acme") none true = true := by
  decide

/-- C2 counterexample: a datasource whose own label equals the resolved
tenant but whose owning database is labeled differently is denied although
the underlying check allows, so for a same-label resource the decision does
not always equal the underlying result. -/
theorem C2_same_label_not_passthrough_cex :
    can_access_datasource (some "acme") ⟨1, some (some "acme"), some (some "other")⟩ true
      = false := by
  decide

/-- C3 counterexample: for a datasource whose own label matches the
resolved tenant but whose owning database is labeled differently,
raise_for_access does not raise: its tenant pre-check reads only the
datasource own label, so with an underlying check that allows, the call
returns ok. -/
theorem C3_raise_not_transitive_cex :
    raise_for_access (some "acme") none none none
      (some ⟨5, some (some "acme"), some (some "other")⟩) AccessResult.ok
      = AccessResult.ok := by
  decide

/-- C4 counterexample: a header value that is whitespace only (empty after
trimming) with no lower tier available leaves the recorded source as
header, with an empty tenant id. -/
theorem C4_whitespace_header_cex :
    (set_tenant_context false none (some " ") "" none).source = "header" ∧
    pyStrip " " = "" := by
  decide

/-- C5 counterexample: get_current_tenant_id derives a subdomain candidate
from a host with only two dot-separated labels, and from a reserved
subdomain, consulting no routing flag. -/
theorem C5_sm_subdomain_cex :
    get_current_tenant_id none none "tenant1.com" false none true = some "tenant1" ∧
    (pySplitDot "tenant1.com").length = 2 ∧
    get_current_tenant_id none none "api.acme.com" false none true = some "api" := by
  decide

/-- C7 counterexample: the string of two hyphens has length 2 and only
characters from the allowed set, yet is_valid_tenant rejects it: with the
hyphens removed the remainder is empty and Python isalnum is False on the
empty string. -/
theorem C7_hyphen_only_cex :
    is_valid_tenant (PyInput.pstr "--") = false ∧
    ("--").length = 2 ∧
    ("--").toList.all (fun c => c.isAlphanum || c == '-' || c == '_') = true := by
  decide

/-- C8 counterexample: a principal carrying both a direct tenant attribute
and a listed claim key resolves to the claim value, not the direct
attribute, so the direct attribute is not preferred over the claim scan. -/
theorem C8_claims_scanned_first_cex :
    extract_tenant_from_oidc_claims
        (some ⟨some [("tenant", PyVal.vstr "claimval")], some (PyVal.vstr "directval")⟩)
      = some "claimval" ∧
    extract_tenant_from_oidc_claims
        (some ⟨some [("tenant", PyVal.vstr "claimval")], some (PyVal.vstr "directval")⟩)
      ≠ some "directval" := by
  decide

/-- C2 (amended): for a labeled resource and resolved tenant X: a database
labeled X passes the underlying result through unchanged and a database
labeled Y with Y distinct from X is denied regardless of the underlying
result; a datasource labeled Y with Y distinct from X is denied regardless;
a datasource labeled X passes the underlying result through provided its
owning database does not itself trigger the tenant mismatch (the
transitive check recorded in C3). -/
theorem C2_label_gate :
    (∀ (t : String) (u : Bool), can_access_database (some t) (some (some t)) u = u) ∧
    (∀ (t y : String) (u : Bool), y ≠ t →
       can_access_database (some t) (some (some y)) u = false) ∧
    (∀ (t y : String) (ds : Datasource) (u : Bool),
       ds.tenant_attr = some (some y) → y ≠ t →
       can_access_datasource (some t) ds u = false) ∧
    (∀ (t : String) (ds : Datasource) (u : Bool),
       ds.tenant_attr = some (some t) →
       tenantDenies (some t) ds.database_tenant_attr = false →
       can_access_datasource (some t) ds u = u) := by
  refine ⟨?_, ?_, ?_, ?_⟩
  · intro t u
    simp [can_access_database, tenantDenies]
  · intro t y u h
    simp [can_access_database, tenantDenies, h]
  · intro t y ds u h1 h2
    simp [can_access_datasource, tenantDenies, h1, h2]
  · intro t ds u h1 h2
    have h3 : tenantDenies (some t) (some (some t)) = false := by
      simp [tenantDenies]
    simp [can_access_datasource, h1, h2, h3]

/-- C3 (amended): a datasource whose owning database carries a label
different from the resolved tenant is denied by can_access_datasource
regardless of its own label and of the underlying result; but
raise_for_access performs no transitive database check: its tenant
pre-check passes such a datasource when its own label matches, and the call
returns whatever the underlying check produces. -/
theorem C3_transitive_database_check :
    (∀ (t y : String) (r : Nat) (dsv : Option (Option String)) (u : Bool), y ≠ t →
       can_access_datasource (some t) ⟨r, dsv, some (some y)⟩ u = false) ∧
    (∀ (t y : String) (r : Nat) (u : AccessResult), y ≠ t →
       raise_for_access (some t) none none none
         (some ⟨r, some (some t), some (some y)⟩) u = u) := by
  constructor
  · intro t y r dsv u h
    simp only [can_access_datasource]
    have h2 : tenantDenies (some t) (some (some y)) = true := by
      simp [tenantDenies, h]
    cases hd : tenantDenies (some t) dsv <;> simp [hd, h2]
  · intro t y r u h
    simp [raise_for_access, checkResource, tenantDenies]

/-- C5 (amended): the middleware extractor yields no candidate for hosts of
at most two dot labels, with routing disabled, or for a reserved leftmost
label; the security manager fallback in get_current_tenant_id instead takes
the first dot label of any non-empty host, excluding only the exact string
www, with no label-count or routing-flag guard. -/
theorem C5_subdomain_guards :
    (∀ (routing : Bool) (host : String), (pySplitDot host).length ≤ 2 →
       extract_tenant_from_subdomain routing host = none) ∧
    (∀ host : String, extract_tenant_from_subdomain false host = none) ∧
    (∀ (routing : Bool) (host : String),
       excluded_subdomains.contains (pyLower ((pySplitDot host).headD "")) = true →
       extract_tenant_from_subdomain routing host = none) ∧
    (∀ host : String, host ≠ "" →
       get_current_tenant_id none none host false none true =
         (if (pySplitDot host).headD "" = "" ∨ (pySplitDot host).headD "" = "www"
          then none else some ((pySplitDot host).headD ""))) := by
  refine ⟨?_, ?_, ?_, ?_⟩
  · intro routing host h
    simp only [extract_tenant_from_subdomain]
    split
    · rfl
    · rw [if_neg]
      omega
  · intro host
    simp [extract_tenant_from_subdomain]
  · intro routing host h
    simp only [extract_tenant_from_subdomain]
    split
    · rfl
    · split
      · simp [h]
      · rfl
  · intro host h
    have hb : (host == "") = false := beq_eq_false_iff_ne.mpr h
    by_cases hc : ((pySplitDot host).head?.getD "" = "" ∨ (pySplitDot host).head?.getD "" = "www") <;>
      simp [get_current_tenant_id, pyFalsy, hb, hc]

/-- C6: a tenant denial on a single named resource is a security exception,
not a not-found error, and its message is built from the resource kind and
the resource id; a dashboard labeled acme passes the tenant pre-check when
the resolved tenant is acme (a header acme resolves to tenant acme with
source header), and under resolved tenant other the same dashboard is
denied with a message naming the dashboard id. -/
theorem C6_named_denial :
    (∀ (t : String) (d : Resource) (v : Option String) (u : AccessResult),
       d.tenant_attr = some v → v ≠ some t →
       raise_for_access (some t) (some d) none none none u
         = AccessResult.securityError (denialMessage "Dashboard" d.rid t)) ∧
    (∀ (t : String) (c : Resource) (v : Option String) (u : AccessResult),
       c.tenant_attr = some v → v ≠ some t →
       raise_for_access (some t) none (some c) none none u
         = AccessResult.securityError (denialMessage "Chart" c.rid t)) ∧
    (∀ (t : String) (db : Resource) (v : Option String) (u : AccessResult),
       db.tenant_attr = some v → v ≠ some t →
       raise_for_access (some t) none none (some db) none u
         = AccessResult.securityError (denialMessage "Database" db.rid t)) ∧
    (∀ (t : String) (ds : Datasource) (v : Option String) (u : AccessResult),
       ds.tenant_attr = some v → v ≠ some t →
       raise_for_access (some t) none none none (some ds) u
         = AccessResult.securityError (denialMessage "Datasource" ds.rid t)) ∧
    (∀ (kind : String) (rid : Nat) (t : String), ∃ pre mid post : String,
       denialMessage kind rid t = pre ++ kind ++ mid ++ toString rid ++ post) ∧
    (∀ (m m2 : String), AccessResult.securityError m ≠ AccessResult.notFoundError m2) ∧
    (∀ (routing : Bool) (dflt : Option String) (host : String) (user : Option User),
       set_tenant_context routing dflt (some "acme") host user = ⟨some "acme", "header"⟩) ∧
    (∀ (d : Resource) (u : AccessResult), d.tenant_attr = some (some "acme") →
       raise_for_access (some "acme") (some d) none none none AccessResult.ok
         = AccessResult.ok ∧
       raise_for_access (some "other") (some d) none none none u
         = AccessResult.securityError (denialMessage "Dashboard" d.rid "other")) := by
  refine ⟨?_, ?_, ?_, ?_, ?_, ?_, ?_, ?_⟩
  · intro t d v u h1 h2
    simp [raise_for_access, checkResource, tenantDenies, h1, h2]
  · intro t c v u h1 h2
    simp [raise_for_access, checkResource, tenantDenies, h1, h2]
  · intro t db v u h1 h2
    simp [raise_for_access, checkResource, tenantDenies, h1, h2]
  · intro t ds v u h1 h2
    simp [raise_for_access, checkResource, tenantDenies, h1, h2]
  · intro kind rid t
    refine ⟨"Access denied: ", " ", " not accessible to tenant " ++ t, ?_⟩
    simp [denialMessage, String.append_assoc]
  · intro m m2 h
    cases h
  · intro routing dflt host user
    have hs : pyStrip "acme" = "acme" := by decide
    simp [set_tenant_context, applyTier, pyFalsy, hs]
  · intro d u h1
    constructor
    · simp [raise_for_access, checkResource, tenantDenies, h1]
    · simp [raise_for_access, checkResource, tenantDenies, h1]

/-- Characterization of the isalnum step of is_valid_tenant over the
original characters: the hyphen-underscore-stripped remainder is non-empty
and all alphanumeric exactly when every character is alphanumeric, a
hyphen or an underscore, and at least one character is alphanumeric. -/
lemma pyIsAlnumStr_filter_iff (l : List Char) :
    pyIsAlnumStr (l.filter keepChar) = true ↔
      ((∀ c ∈ l, c.isAlphanum = true ∨ c = '-' ∨ c = '_') ∧
       (∃ c ∈ l, c.isAlphanum = true)) := by
  unfold pyIsAlnumStr
  rw [Bool.and_eq_true, List.all_eq_true]
  constructor
  · rintro ⟨hne, hall⟩
    have hne2 : l.filter keepChar ≠ [] := by
      intro hnil
      rw [hnil] at hne
      simp at hne
    constructor
    · intro c hc
      by_cases hk : keepChar c = true
      · exact Or.inl (hall c (List.mem_filter.mpr ⟨hc, hk⟩))
      · by_cases h1 : c = '-'
        · exact Or.inr (Or.inl h1)
        · refine Or.inr (Or.inr ?_)
          by_contra h2
          exact hk (by simp [keepChar, h1, h2])
    · obtain ⟨c, hc⟩ := List.exists_mem_of_ne_nil _ hne2
      exact ⟨c, (List.mem_filter.mp hc).1, hall c hc⟩
  · rintro ⟨hset, c, hcl, hca⟩
    have hd : c ≠ '-' := by
      rintro rfl
      exact absurd hca (by decide)
    have hu : c ≠ '_' := by
      rintro rfl
      exact absurd hca (by decide)
    have hk : keepChar c = true := by
      simp [keepChar, hd, hu]
    have hmem : c ∈ l.filter keepChar := List.mem_filter.mpr ⟨hcl, hk⟩
    refine ⟨?_, ?_⟩
    · cases hl : l.filter keepChar with
      | nil =>
        rw [hl] at hmem
        cases hmem
      | cons a t => simp [hl]
    · intro x hx
      obtain ⟨hxl, hxk⟩ := List.mem_filter.mp hx
      rcases hset x hxl with h | h | h
      · exact h
      · rw [h] at hxk
        simp [keepChar] at hxk
      · rw [h] at hxk
        simp [keepChar] at hxk

/-- is_valid_tenant on a string: the length window plus the stripped
isalnum step. -/
lemma is_valid_tenant_pstr (s : String) :
    is_valid_tenant (PyInput.pstr s) = true ↔
      (2 ≤ s.toList.length ∧ s.toList.length ≤ 50 ∧
       pyIsAlnumStr (s.toList.filter keepChar) = true) := by
  show (if s.toList.isEmpty then false
        else if s.toList.length < 2 || 50 < s.toList.length then false
        else pyIsAlnumStr (s.toList.filter keepChar)) = true ↔ _
  generalize s.toList = l
  cases l with
  | nil => decide
  | cons a t =>
    simp only [List.isEmpty_cons, Bool.false_eq_true, if_false]
    by_cases h2 : (decide ((a :: t).length < 2) || decide (50 < (a :: t).length)) = true
    · rw [if_pos h2]
      simp only [Bool.or_eq_true, decide_eq_true_eq] at h2
      constructor
      · intro hx
        exact absurd hx (by decide)
      · rintro ⟨ha, hb2, _⟩
        omega
    · rw [if_neg h2]
      simp only [Bool.or_eq_true, decide_eq_true_eq] at h2
      push_neg at h2
      constructor
      · intro hx
        exact ⟨by omega, by omega, hx⟩
      · rintro ⟨_, _, hx⟩
        exact hx

/-- C7 (amended): is_valid_tenant is true exactly for strings of length 2
to 50 over letters, digits, hyphen and underscore that contain at least one
letter or digit; it is false for non-string input, the empty string,
length 1, length 51, and out-of-set characters; a string of hyphens and
underscores alone (the counterexample) is rejected because the stripped
remainder is empty. The named examples of the claim hold. -/
theorem C7_is_valid_tenant_spec :
    (∀ s : String, is_valid_tenant (PyInput.pstr s) = true ↔
       (2 ≤ s.toList.length ∧ s.toList.length ≤ 50 ∧
        (∀ c ∈ s.toList, c.isAlphanum = true ∨ c = '-' ∨ c = '_') ∧
        (∃ c ∈ s.toList, c.isAlphanum = true))) ∧
    is_valid_tenant PyInput.nonstring = false ∧
    is_valid_tenant (PyInput.pstr "tenant1") = true ∧
    is_valid_tenant (PyInput.pstr "tenant_123") = true ∧
    is_valid_tenant (PyInput.pstr "tenant-abc") = true ∧
    is_valid_tenant (PyInput.pstr "") = false ∧
    is_valid_tenant (PyInput.pstr "a") = false ∧
    is_valid_tenant (PyInput.pstr (String.mk (List.replicate 51 'a'))) = false ∧
    is_valid_tenant (PyInput.pstr "tenant@123") = false := by
  refine ⟨?_, by decide, by decide, by decide, by decide, by decide, by decide,
    by decide, by decide⟩
  intro s
  rw [is_valid_tenant_pstr, pyIsAlnumStr_filter_iff]

/-- applyTier leaves a truthy running state unchanged. -/
lemma applyTier_skip (cur : Option String × String) (cand : Option String) (src : String)
    (h : pyFalsy cur.1 = false) : applyTier cur cand src = cur := by
  simp [applyTier, h]

/-- applyTier on two falsy running states: either the candidate is truthy
and both states move to the same truthy state carrying the tier source, or
the candidate is absent-or-empty and both states are left unchanged. -/
lemma applyTier_falsy (a b : Option String × String) (cand : Option String) (src : String)
    (ha : pyFalsy a.1 = true) (hb : pyFalsy b.1 = true) :
    (applyTier a cand src = applyTier b cand src ∧
     pyFalsy (applyTier a cand src).1 = false ∧ (applyTier a cand src).2 = src) ∨
    (applyTier a cand src = a ∧ applyTier b cand src = b) := by
  cases cand with
  | none =>
    right
    constructor <;> simp [applyTier, ha, hb]
  | some v =>
    by_cases hv : (v == "") = true
    · right
      constructor <;> simp [applyTier, ha, hb, hv]
    · have hra : applyTier a (some v) src = (some v, src) := by
        simp [applyTier, ha, hv]
      have hrb : applyTier b (some v) src = (some v, src) := by
        simp [applyTier, hb, hv]
      left
      refine ⟨?_, ?_, ?_⟩
      · rw [hra, hrb]
      · rw [hra]
        simp [pyFalsy, hv]
      · rw [hra]

/-- C4 (amended): a header value that is non-empty after trimming resolves
to the trimmed value with source header regardless of the other signals;
a literally empty header behaves exactly as an absent header; a header that
is whitespace only falls through to the lower tiers — either some lower
tier fires and the outcome equals that of an absent header, or no tier
fires and the context keeps the empty trimmed value with source header
while the absent-header outcome is no tenant with source none. -/
theorem C4_header_tier :
    (∀ (routing : Bool) (dflt : Option String) (h host : String) (user : Option User),
       pyStrip h ≠ "" →
       set_tenant_context routing dflt (some h) host user
         = ⟨some (pyStrip h), "header"⟩) ∧
    (∀ (routing : Bool) (dflt : Option String) (host : String) (user : Option User),
       set_tenant_context routing dflt (some "") host user
         = set_tenant_context routing dflt none host user) ∧
    (∀ (routing : Bool) (dflt : Option String) (h host : String) (user : Option User),
       h ≠ "" → pyStrip h = "" →
       (set_tenant_context routing dflt (some h) host user
          = set_tenant_context routing dflt none host user) ∨
       (set_tenant_context routing dflt (some h) host user = ⟨some "", "header"⟩ ∧
        set_tenant_context routing dflt none host user = ⟨none, "none"⟩)) := by
  refine ⟨?_, ?_, ?_⟩
  · intro routing dflt h host user hst
    have hne : (h == "") = false := by
      rw [beq_eq_false_iff_ne]
      rintro rfl
      exact hst (by decide)
    have hf : pyFalsy ((some (pyStrip h), "header") : Option String × String).1 = false := by
      show pyFalsy (some (pyStrip h)) = false
      simpa [pyFalsy] using beq_eq_false_iff_ne.mpr hst
    simp only [set_tenant_context, hne, Bool.false_eq_true, if_false]
    rw [applyTier_skip _ _ _ hf, applyTier_skip _ _ _ hf, applyTier_skip _ _ _ hf]
  · intro routing dflt host user
    rfl
  · intro routing dflt h host user hne hst
    have hb : (h == "") = false := beq_eq_false_iff_ne.mpr hne
    simp only [set_tenant_context, hb, Bool.false_eq_true, if_false, hst]
    rcases applyTier_falsy (some "", "header") (none, "none")
        (extract_tenant_from_subdomain routing host) "subdomain" rfl rfl with
      ⟨e1, _, _⟩ | ⟨a1, b1⟩
    · left
      rw [e1]
    · rw [a1, b1]
      rcases applyTier_falsy (some "", "header") (none, "none")
          (extract_tenant_from_oidc_claims user) "oidc" rfl rfl with
        ⟨e2, _, _⟩ | ⟨a2, b2⟩
      · left
        rw [e2]
      · rw [a2, b2]
        rcases applyTier_falsy (some "", "header") (none, "none") dflt "default" rfl rfl with
          ⟨e3, _, _⟩ | ⟨a3, b3⟩
        · left
          rw [e3]
        · right
          rw [a3, b3]
          exact ⟨rfl, rfl⟩

/-- C8 (amended): the claim set is scanned case-sensitively for the keys
tenant_id, tenant, org_id, organization, company_id in that order, the
first present key winning with its value stringified; the direct tenant
attribute is consulted only when no listed key is present, so the claim
scan, not the direct attribute, takes precedence. A key differing only in
case is not matched (second conjunct). -/
theorem C8_claim_scan_order :
    (∀ (d : List (String × PyVal)) (attr : Option PyVal),
       extract_tenant_from_oidc_claims (some ⟨some d, attr⟩) =
         (match lookupClaim d "tenant_id" with
          | some v => some (pyStr v)
          | none =>
            match lookupClaim d "tenant" with
            | some v => some (pyStr v)
            | none =>
              match lookupClaim d "org_id" with
              | some v => some (pyStr v)
              | none =>
                match lookupClaim d "organization" with
                | some v => some (pyStr v)
                | none =>
                  match lookupClaim d "company_id" with
                  | some v => some (pyStr v)
                  | none =>
                    match attr with
                    | some w => if pyTruthy w then some (pyStr w) else none
                    | none => none)) ∧
    extract_tenant_from_oidc_claims (some ⟨some [("Tenant_id", PyVal.vstr "x")], none⟩)
      = none := by
  constructor
  · intro d attr
    simp only [extract_tenant_from_oidc_claims, tenant_claims]
    cases h1 : lookupClaim d "tenant_id" <;>
    cases h2 : lookupClaim d "tenant" <;>
    cases h3 : lookupClaim d "org_id" <;>
    cases h4 : lookupClaim d "organization" <;>
    cases h5 : lookupClaim d "company_id" <;>
    simp [List.findSome?, h1, h2, h3, h4, h5]
  · decide

/-- C9: the derived cache key is tenant:T:K for an explicitly supplied or
g-resolved nonempty tenant T, global:K with no tenant, and the global
prefixing is unconditional, so the base key global:config with no tenant
yields global:global:config. -/
theorem C9_cache_key_shape :
    (∀ (K T : String) (g : Option String), T ≠ "" →
       get_tenant_cache_key K (some T) g = "tenant:" ++ T ++ ":" ++ K) ∧
    (∀ (K T : String), T ≠ "" →
       get_tenant_cache_key K none (some T) = "tenant:" ++ T ++ ":" ++ K) ∧
    (∀ K : String, get_tenant_cache_key K none none = "global:" ++ K) ∧
    get_tenant_cache_key "global:config" none none = "global:global:config" := by
  refine ⟨?_, ?_, ?_, by decide⟩
  · intro K T g h
    simp [get_tenant_cache_key, h]
  · intro K T h
    simp [get_tenant_cache_key, h]
  · intro K
    rfl

/-- C10: an explicitly supplied empty-string tenant id yields the global
key, the same as no tenant, and the g-context tenant is consulted only when
the tenant_id argument is none: for any supplied string the result does not
depend on the g context. -/
theorem C10_cache_key_explicit_empty :
    (∀ (K : String) (g : Option String), get_tenant_cache_key K (some "") g = "global:" ++ K) ∧
    (∀ (K s : String) (g g2 : Option String),
       get_tenant_cache_key K (some s) g = get_tenant_cache_key K (some s) g2) := by
  constructor
  · intro K g
    rfl
  · intro K s g g2
    rfl

end Superset
